import Mathlib

/-!
Shallow embedding of the Modbus/TCP firewall data plane
(src/modbus_firewall.py) together with the frame codec, DPI engine,
security-policy engine and rate limiter it calls.  The proxy control flow
(`process_request`, the relay loop of `handle_client`) is translated from
src/modbus_firewall.py.  The called modules (config, dpi_engine,
security_policy, logging_system) are not part of the source tree, so their
behaviour is modelled from the specification, as marked on each definition.

Bytes are `Nat` (a well-formed byte is < 256); byte strings are `List Nat`;
wall-clock timestamps are `ℚ` (seconds).
-/

/-- Modelled from the spec: the parsed view of one Modbus/TCP ADU
(`ModbusFrame`, spec section 3; dpi_engine module absent from src/). -/
structure ModbusFrame where
  transaction_id : Nat
  protocol_id : Nat
  length : Nat
  unit_id : Nat
  function_code : Nat
  data : List Nat
  raw : List Nat
deriving DecidableEq, Repr

/-- Big-endian 16-bit value from two bytes. -/
def be16 (hi lo : Nat) : Nat := hi * 256 + lo

/-- High byte of a 16-bit value. -/
def byteHi (n : Nat) : Nat := (n / 256) % 256

/-- Low byte of a value. -/
def byteLo (n : Nat) : Nat := n % 256

/-- Modelled from the spec: `parse(bytes)` of the Frame Codec
(spec section 4.1; dpi_engine module absent from src/).  Fails with
TooShort below 8 bytes, reads the big-endian MBAP header, rejects a
nonzero protocol id, rejects a length field that disagrees with the
byte count or is below 2 or a total above 260, and otherwise keeps the
function code, the payload and the raw bytes. -/
def parse_frame (bytes : List Nat) : Except String ModbusFrame :=
  if bytes.length < 8 then Except.error "TooShort"
  else
    let tid := be16 (bytes.getD 0 0) (bytes.getD 1 0)
    let pid := be16 (bytes.getD 2 0) (bytes.getD 3 0)
    let len := be16 (bytes.getD 4 0) (bytes.getD 5 0)
    let uid := bytes.getD 6 0
    if pid ≠ 0 then Except.error "InvalidProtocolID"
    else if len ≠ bytes.length - 6 ∨ len < 2 ∨ 260 < bytes.length then
      Except.error "LengthMismatch"
    else
      Except.ok ⟨tid, pid, len, uid, bytes.getD 7 0, bytes.drop 8, bytes⟩

/-- Modelled from the spec: second-stage structural validation of the DPI
engine (`validate_frame_integrity`, spec section 4.2; dpi_engine module
absent from src/).  Returns `none` when the frame passes, `some reason`
when a structural check fails. -/
def validate_frame_integrity (f : ModbusFrame) : Option String :=
  if f.function_code ∈ [1, 2, 3, 4] then
    if f.data.length ≠ 4 then some "bad read pdu length"
    else
      let qty := be16 (f.data.getD 2 0) (f.data.getD 3 0)
      if f.function_code ∈ [1, 2] then
        if 2000 < qty then some "coil quantity too large" else none
      else
        if 125 < qty then some "register quantity too large" else none
  else if f.function_code ∈ [5, 6] then
    if f.data.length ≠ 4 then some "bad write pdu length" else none
  else if f.function_code ∈ [15, 16] then
    if f.data.length < 5 then some "bad write multiple pdu length"
    else if f.data.getD 4 0 ≠ f.data.length - 5 then some "byte count mismatch"
    else
      let qty := be16 (f.data.getD 2 0) (f.data.getD 3 0)
      if f.function_code = 15 then
        if 2000 < qty then some "coil quantity too large" else none
      else
        if 123 < qty then some "register quantity too large" else none
  else none

/-- Modbus exception code ILLEGAL_FUNCTION. -/
def ILLEGAL_FUNCTION : Nat := 1

/-- Modelled from the spec: `build_exception(frame, code)` of the Frame
Codec (spec sections 4.1 and 6; dpi_engine.create_exception_response absent
from src/).  A 9-byte reply: original transaction id and protocol id,
recomputed length 3, original unit id, function byte with the high bit
set, one exception-code byte. -/
def create_exception_response (f : ModbusFrame) (code : Nat) : List Nat :=
  [byteHi f.transaction_id, byteLo f.transaction_id,
   byteHi f.protocol_id, byteLo f.protocol_id,
   0, 3,
   f.unit_id % 256,
   128 ||| (f.function_code % 256),
   code % 256]

/-- Modelled from the spec: decision categories of `PolicyDecision`
(spec section 3; security_policy module absent from src/). -/
inductive PolicyCategory where
  | AllowedFC
  | BlockedFC
  | UnknownFC
  | SourceDenied
  | RateLimited
deriving DecidableEq, Repr

/-- Modelled from the spec: `PolicyDecision` (spec section 3;
security_policy module absent from src/). -/
structure PolicyDecision where
  is_allowed : Bool
  reason : String
  category : PolicyCategory
deriving DecidableEq, Repr

/-- Modelled from the spec: the immutable `SecurityPolicy` record
(spec section 3; config and security_policy modules absent from src/). -/
structure SecurityPolicy where
  allowed_fcs : List Nat
  blocked_fcs : List Nat
  write_allowed_ips : List String
  rate_limit_rps : Nat
deriving DecidableEq, Repr

/-- Modelled from the spec: the default policy shipped with the system
(spec sections 4.3 and 6; config module absent from src/). -/
def defaultPolicy : SecurityPolicy :=
  { allowed_fcs := [1, 2, 3, 4]
    blocked_fcs := [5, 6, 15, 16]
    write_allowed_ips := []
    rate_limit_rps := 100 }

/-- Write function codes checked by policy rule 1 (spec section 4.3). -/
def writeFCs : List Nat := [5, 6, 15, 16, 22]

/-- Timestamps still inside the 1-second sliding window at time `now`
(spec section 4.4: drop any timestamps older than now minus one second). -/
def drop_old (now : ℚ) (w : List ℚ) : List ℚ :=
  w.filter (fun ts => decide (now - ts ≤ 1))

/-- Modelled from the spec: the rate limiter admission check
(spec section 4.4; security_policy module absent from src/).  Drops
stale timestamps; denies without appending when the remaining count is
at or above the threshold; otherwise appends `now` and allows. -/
def rate_check (threshold : Nat) (now : ℚ) (w : List ℚ) :
    Bool × List ℚ :=
  let kept := drop_old now w
  if threshold ≤ kept.length then (false, kept)
  else (true, kept ++ [now])

/-- Modelled from the spec: rules 1-4 of the policy engine evaluation
order (spec section 4.3; security_policy module absent from src/),
first rule to fire wins: source-denied writes, blocked set, allowed
set, unknown function code. -/
def baseDecision (pol : SecurityPolicy) (fc : Nat) (src : String) :
    PolicyDecision :=
  if fc ∈ writeFCs ∧ src ∉ pol.write_allowed_ips then
    ⟨false, "write denied for source", PolicyCategory.SourceDenied⟩
  else if fc ∈ pol.blocked_fcs then
    ⟨false, "function code blocked", PolicyCategory.BlockedFC⟩
  else if fc ∈ pol.allowed_fcs then
    ⟨true, "function code allowed", PolicyCategory.AllowedFC⟩
  else
    ⟨false, "unknown function code", PolicyCategory.UnknownFC⟩

/-- Modelled from the spec: the full policy engine evaluation
(spec section 4.3; security_policy module absent from src/): the rule
chain decides, and on any ALLOW the rate limiter runs last (rule 5) and
may overwrite the decision to a RateLimited block. -/
def evaluate (pol : SecurityPolicy) (fc : Nat) (src : String)
    (now : ℚ) (window : List ℚ) : PolicyDecision × List ℚ :=
  let base : PolicyDecision := baseDecision pol fc src
  if base.is_allowed then
    let rc := rate_check pol.rate_limit_rps now window
    if rc.1 then (base, rc.2)
    else (⟨false, "rate limited", PolicyCategory.RateLimited⟩, rc.2)
  else (base, window)

/-- Log actions, from logging_system.LogAction as used by
src/modbus_firewall.py. -/
inductive LogAction where
  | ALLOW
  | BLOCK
  | ERROR
deriving DecidableEq, Repr

/-- One transaction log record, carrying the arguments that
src/modbus_firewall.py passes to logger.log_transaction (absent keyword
arguments default to 0). -/
structure LogRecord where
  transaction_id : Nat
  source_ip : String
  source_port : Nat
  function_code : Nat
  action : LogAction
  reason : String
  unit_id : Nat
  data_length : Nat
deriving DecidableEq, Repr

/-- Increments that one call to process_request applies to the firewall
counters (total_requests, total_allowed, total_blocked, total_errors)
or to the owning ConnectionStats (requests, allowed, blocked, errors). -/
structure StatDelta where
  requests : Nat
  allowed : Nat
  blocked : Nat
  errors : Nat
deriving DecidableEq, Repr

/-- What a single await of plc_reader.read(260) yields: a timeout, or a
byte string (empty when the upstream closed). -/
inductive UpstreamRead where
  | timeout
  | bytes (bs : List Nat)
deriving DecidableEq, Repr

/-- Observable effects of one process_request call: byte strings written
to the PLC socket and to the client socket in order, transaction log
records, warning logs, the global counter increments, and the owning
connection's counter increments (`none` when the connections map has no
entry for the client, mirroring the `if conn_stats` guards). -/
structure Effects where
  plcWrites : List (List Nat)
  clientWrites : List (List Nat)
  logs : List LogRecord
  warnings : List String
  globalStats : StatDelta
  conn : Option StatDelta
deriving DecidableEq, Repr

/-- ModbusFirewall.process_request of src/modbus_firewall.py
(lines 146-257), as a function from the received bytes, the caller
address, the wall-clock time, the rate-limiter window and the behaviour
of the single upstream read to the observable effects and the new
rate-limiter window.  `connPresent` says whether
self.connections.get((client_ip, client_port)) found an entry. -/
def process_request (pol : SecurityPolicy) (connPresent : Bool)
    (data : List Nat) (client_ip : String) (client_port : Nat)
    (now : ℚ) (window : List ℚ) (upstream : UpstreamRead) :
    Effects × List ℚ :=
  match parse_frame data with
  | Except.error e =>
      let d : StatDelta := ⟨1, 0, 0, 1⟩
      ({ plcWrites := []
         clientWrites := []
         logs := [⟨0, client_ip, client_port, 0, LogAction.ERROR, e, 0, 0⟩]
         warnings := []
         globalStats := d
         conn := if connPresent then some d else none }, window)
  | Except.ok frame =>
      match validate_frame_integrity frame with
      | some ierr =>
          let d : StatDelta := ⟨1, 0, 0, 1⟩
          ({ plcWrites := []
             clientWrites := []
             logs := [⟨frame.transaction_id, client_ip, client_port,
                       frame.function_code, LogAction.ERROR, ierr,
                       frame.unit_id, 0⟩]
             warnings := []
             globalStats := d
             conn := if connPresent then some d else none }, window)
      | none =>
          let pr := evaluate pol frame.function_code client_ip now window
          if pr.1.is_allowed then
            let d : StatDelta := ⟨1, 1, 0, 0⟩
            let allowLog : LogRecord :=
              ⟨frame.transaction_id, client_ip, client_port,
               frame.function_code, LogAction.ALLOW, pr.1.reason,
               frame.unit_id, frame.data.length⟩
            match upstream with
            | UpstreamRead.timeout =>
                ({ plcWrites := [data]
                   clientWrites := []
                   logs := [allowLog]
                   warnings := ["Timeout waiting for PLC response"]
                   globalStats := d
                   conn := if connPresent then some d else none }, pr.2)
            | UpstreamRead.bytes resp =>
                ({ plcWrites := [data]
                   clientWrites := if resp = [] then [] else [resp]
                   logs := [allowLog]
                   warnings := []
                   globalStats := d
                   conn := if connPresent then some d else none }, pr.2)
          else
            let d : StatDelta := ⟨1, 0, 1, 0⟩
            ({ plcWrites := []
               clientWrites := [create_exception_response frame ILLEGAL_FUNCTION]
               logs := [⟨frame.transaction_id, client_ip, client_port,
                         frame.function_code, LogAction.BLOCK, pr.1.reason,
                         frame.unit_id, frame.data.length⟩]
               warnings := []
               globalStats := d
               conn := if connPresent then some d else none }, pr.2)

/-- One iteration's input to the relay loop of handle_client: the bytes
read from the client, the wall-clock time of the request, and the
behaviour of the upstream read should the request be forwarded. -/
structure Incoming where
  data : List Nat
  now : ℚ
  upstream : UpstreamRead
deriving DecidableEq, Repr

/-- The relay loop of ModbusFirewall.handle_client
(src/modbus_firewall.py lines 101-123): each frame read from the client
is handed to process_request and the loop continues; the rate-limiter
window threads through. -/
def runRequests (pol : SecurityPolicy) (connPresent : Bool)
    (client_ip : String) (client_port : Nat) :
    List Incoming → List ℚ → List Effects × List ℚ
  | [], window => ([], window)
  | r :: rest, window =>
      let step := process_request pol connPresent r.data client_ip
        client_port r.now window r.upstream
      let tail := runRequests pol connPresent client_ip client_port rest step.2
      (step.1 :: tail.1, tail.2)

/-- Outcome of the attempt to open the upstream PLC connection in
handle_client (src/modbus_firewall.py lines 80-97). -/
inductive UpstreamConnect where
  | timeout
  | failed
  | ok
deriving DecidableEq, Repr

/-- ModbusFirewall.handle_client of src/modbus_firewall.py
(lines 65-144), restricted to its connection-tracking and relay
behaviour: the client address is inserted into the connections map on
accept; when the upstream connect times out or fails the function
returns early (the `finally` block of the relay `try` is never entered,
so the entry stays); otherwise the relay loop runs and the `finally`
block removes the entry.  Returns the connections map after the session
and the per-request effects. -/
def handle_client (pol : SecurityPolicy) (conns : List (String × Nat))
    (addr : String × Nat) (connect : UpstreamConnect)
    (reqs : List Incoming) (window : List ℚ) :
    List (String × Nat) × List Effects :=
  let conns1 := addr :: conns
  match connect with
  | UpstreamConnect.timeout => (conns1, [])
  | UpstreamConnect.failed => (conns1, [])
  | UpstreamConnect.ok =>
      let run := runRequests pol true addr.1 addr.2 reqs window
      (conns1.erase addr, run.1)

/-! ### Helper lemmas -/

/-- The relay loop hands every incoming frame to process_request and
continues: one Effects record per request. -/
theorem runRequests_length (pol : SecurityPolicy) (cp : Bool) (ip : String)
    (port : Nat) (reqs : List Incoming) :
    ∀ w : List ℚ, ((runRequests pol cp ip port reqs w).1).length = reqs.length := by
  induction reqs with
  | nil => intro w; rfl
  | cons r rest ih => intro w; simp [runRequests, ih]

/-- Inversion of a successful parse: the frame's header fields are the
big-endian readings of the received bytes. -/
theorem parse_frame_ok_inv (bytes : List Nat) (f : ModbusFrame)
    (h : parse_frame bytes = Except.ok f) :
    8 ≤ bytes.length ∧
    f.transaction_id = be16 (bytes.getD 0 0) (bytes.getD 1 0) ∧
    f.unit_id = bytes.getD 6 0 ∧
    f.function_code = bytes.getD 7 0 := by
  simp only [parse_frame] at h
  split at h
  · exact absurd h (by simp)
  · split at h
    · exact absurd h (by simp)
    · split at h
      · exact absurd h (by simp)
      · injection h with h
        subst h
        refine ⟨by omega, rfl, rfl, rfl⟩

/-- An indexed element of a list of bytes is a byte. -/
theorem getD_lt_256 (l : List Nat) (h : ∀ b ∈ l, b < 256) (i : Nat)
    (hi : i < l.length) : l.getD i 0 < 256 := by
  rw [List.getD_eq_getElem l 0 hi]
  exact h _ (List.getElem_mem hi)

/-! ### Claim theorems -/

/-- Claim C1: for every request the policy engine allows, process_request
writes to the upstream PLC socket exactly the bytes received from the
client, and the non-empty upstream reply is written to the client
byte-for-byte. -/
theorem transparency_on_allow
    (pol : SecurityPolicy) (cp : Bool) (data : List Nat) (ip : String)
    (port : Nat) (now : ℚ) (w : List ℚ) (r : List Nat) (f : ModbusFrame)
    (hp : parse_frame data = Except.ok f)
    (hv : validate_frame_integrity f = none)
    (ha : (evaluate pol f.function_code ip now w).1.is_allowed = true)
    (hr : r ≠ []) :
    (process_request pol cp data ip port now w (UpstreamRead.bytes r)).1.plcWrites
        = [data] ∧
    (process_request pol cp data ip port now w (UpstreamRead.bytes r)).1.clientWrites
        = [r] := by
  simp [process_request, hp, hv, ha, hr]

/-- Claim C1 witness: scenario S1, ReadHoldingRegisters forwarded and the
PLC reply relayed verbatim. -/
theorem transparency_on_allow_witness :
    (process_request defaultPolicy true [0, 1, 0, 0, 0, 6, 1, 3, 0, 0, 0, 10]
        "10.0.0.2" 5000 0 []
        (UpstreamRead.bytes [0, 1, 0, 0, 0, 5, 1, 3, 2, 0, 42])).1.plcWrites
      = [[0, 1, 0, 0, 0, 6, 1, 3, 0, 0, 0, 10]] ∧
    (process_request defaultPolicy true [0, 1, 0, 0, 0, 6, 1, 3, 0, 0, 0, 10]
        "10.0.0.2" 5000 0 []
        (UpstreamRead.bytes [0, 1, 0, 0, 0, 5, 1, 3, 2, 0, 42])).1.clientWrites
      = [[0, 1, 0, 0, 0, 5, 1, 3, 2, 0, 42]] :=
  transparency_on_allow defaultPolicy true _ "10.0.0.2" 5000 0 [] _
    ⟨1, 0, 6, 1, 3, [0, 0, 0, 10], [0, 1, 0, 0, 0, 6, 1, 3, 0, 0, 0, 10]⟩
    rfl rfl (by decide) (by decide)

/-- Claim C2: for every request the policy engine blocks, process_request
writes to the client the synthesized exception reply built from the
parsed frame with exception code ILLEGAL_FUNCTION: 9 bytes whose function
byte is 0x80 OR the original function code and whose transaction id and
unit id echo the request, and writes nothing to the upstream PLC socket. -/
theorem block_exception_reply
    (pol : SecurityPolicy) (cp : Bool) (data : List Nat) (ip : String)
    (port : Nat) (now : ℚ) (w : List ℚ) (up : UpstreamRead) (f : ModbusFrame)
    (hbytes : ∀ b ∈ data, b < 256)
    (hp : parse_frame data = Except.ok f)
    (hv : validate_frame_integrity f = none)
    (hb : (evaluate pol f.function_code ip now w).1.is_allowed = false) :
    (process_request pol cp data ip port now w up).1.clientWrites
        = [create_exception_response f ILLEGAL_FUNCTION] ∧
    (process_request pol cp data ip port now w up).1.plcWrites = [] ∧
    (create_exception_response f ILLEGAL_FUNCTION).length = 9 ∧
    (create_exception_response f ILLEGAL_FUNCTION).getD 7 0
        = 128 ||| f.function_code ∧
    (create_exception_response f ILLEGAL_FUNCTION).getD 0 0 = data.getD 0 0 ∧
    (create_exception_response f ILLEGAL_FUNCTION).getD 1 0 = data.getD 1 0 ∧
    (create_exception_response f ILLEGAL_FUNCTION).getD 6 0
        = data.getD 6 0 ∧
    (create_exception_response f ILLEGAL_FUNCTION).getD 8 0
        = ILLEGAL_FUNCTION := by
  obtain ⟨hlen, htid, huid, hfc⟩ := parse_frame_ok_inv data f hp
  have h0 : data.getD 0 0 < 256 := getD_lt_256 data hbytes 0 (by omega)
  have h1 : data.getD 1 0 < 256 := getD_lt_256 data hbytes 1 (by omega)
  have h6 : data.getD 6 0 < 256 := getD_lt_256 data hbytes 6 (by omega)
  have h7 : data.getD 7 0 < 256 := getD_lt_256 data hbytes 7 (by omega)
  refine ⟨?_, ?_, rfl, ?_, ?_, ?_, ?_, rfl⟩
  · simp [process_request, hp, hv, hb]
  · simp [process_request, hp, hv, hb]
  · show 128 ||| (f.function_code % 256) = 128 ||| f.function_code
    rw [hfc, Nat.mod_eq_of_lt h7]
  · show byteHi f.transaction_id = data.getD 0 0
    rw [htid]
    simp only [byteHi, be16]
    omega
  · show byteLo f.transaction_id = data.getD 1 0
    rw [htid]
    simp only [byteLo, be16]
    omega
  · show f.unit_id % 256 = data.getD 6 0
    rw [huid, Nat.mod_eq_of_lt h6]

/-- Claim C2 witness: scenario S2, WriteSingleRegister blocked; the client
receives 00 02 00 00 00 03 01 86 01 and upstream receives nothing. -/
theorem block_exception_reply_witness :
    (process_request defaultPolicy true [0, 2, 0, 0, 0, 6, 1, 6, 0, 0, 3, 231]
        "10.0.0.2" 5000 0 [] (UpstreamRead.bytes [])).1.clientWrites
      = [create_exception_response
          ⟨2, 0, 6, 1, 6, [0, 0, 3, 231], [0, 2, 0, 0, 0, 6, 1, 6, 0, 0, 3, 231]⟩
          ILLEGAL_FUNCTION] ∧
    (process_request defaultPolicy true [0, 2, 0, 0, 0, 6, 1, 6, 0, 0, 3, 231]
        "10.0.0.2" 5000 0 [] (UpstreamRead.bytes [])).1.plcWrites = [] ∧
    (create_exception_response
        ⟨2, 0, 6, 1, 6, [0, 0, 3, 231], [0, 2, 0, 0, 0, 6, 1, 6, 0, 0, 3, 231]⟩
        ILLEGAL_FUNCTION).length = 9 ∧
    (create_exception_response
        ⟨2, 0, 6, 1, 6, [0, 0, 3, 231], [0, 2, 0, 0, 0, 6, 1, 6, 0, 0, 3, 231]⟩
        ILLEGAL_FUNCTION).getD 7 0 = 128 ||| 6 ∧
    (create_exception_response
        ⟨2, 0, 6, 1, 6, [0, 0, 3, 231], [0, 2, 0, 0, 0, 6, 1, 6, 0, 0, 3, 231]⟩
        ILLEGAL_FUNCTION).getD 0 0
      = List.getD [0, 2, 0, 0, 0, 6, 1, 6, 0, 0, 3, 231] 0 0 ∧
    (create_exception_response
        ⟨2, 0, 6, 1, 6, [0, 0, 3, 231], [0, 2, 0, 0, 0, 6, 1, 6, 0, 0, 3, 231]⟩
        ILLEGAL_FUNCTION).getD 1 0
      = List.getD [0, 2, 0, 0, 0, 6, 1, 6, 0, 0, 3, 231] 1 0 ∧
    (create_exception_response
        ⟨2, 0, 6, 1, 6, [0, 0, 3, 231], [0, 2, 0, 0, 0, 6, 1, 6, 0, 0, 3, 231]⟩
        ILLEGAL_FUNCTION).getD 6 0
      = List.getD [0, 2, 0, 0, 0, 6, 1, 6, 0, 0, 3, 231] 6 0 ∧
    (create_exception_response
        ⟨2, 0, 6, 1, 6, [0, 0, 3, 231], [0, 2, 0, 0, 0, 6, 1, 6, 0, 0, 3, 231]⟩
        ILLEGAL_FUNCTION).getD 8 0 = ILLEGAL_FUNCTION :=
  block_exception_reply defaultPolicy true _ "10.0.0.2" 5000 0 []
    (UpstreamRead.bytes []) _ (by decide) rfl rfl (by decide)

/-- Claim C3: for every input failing frame parsing or frame-integrity
validation, process_request writes nothing to either socket, increments
the error counters, emits exactly one ERROR log record, and returns so
that the relay loop continues with the remaining requests. -/
theorem no_reply_on_structural_error
    (pol : SecurityPolicy) (cp : Bool) (data : List Nat) (ip : String)
    (port : Nat) (now : ℚ) (w : List ℚ) (up : UpstreamRead)
    (rest : List Incoming)
    (h : (∃ e, parse_frame data = Except.error e) ∨
         (∃ f ierr, parse_frame data = Except.ok f ∧
            validate_frame_integrity f = some ierr)) :
    (process_request pol cp data ip port now w up).1.plcWrites = [] ∧
    (process_request pol cp data ip port now w up).1.clientWrites = [] ∧
    (process_request pol cp data ip port now w up).1.globalStats = ⟨1, 0, 0, 1⟩ ∧
    (process_request pol cp data ip port now w up).1.conn
        = (if cp then some ⟨1, 0, 0, 1⟩ else none) ∧
    ((process_request pol cp data ip port now w up).1.logs).length = 1 ∧
    (∀ l ∈ (process_request pol cp data ip port now w up).1.logs,
        l.action = LogAction.ERROR) ∧
    ((runRequests pol cp ip port (⟨data, now, up⟩ :: rest) w).1).length
        = rest.length + 1 := by
  rcases h with ⟨e, he⟩ | ⟨f, ierr, hf, hi⟩
  · refine ⟨?_, ?_, ?_, ?_, ?_, ?_, ?_⟩ <;>
      simp [process_request, he, runRequests_length]
  · refine ⟨?_, ?_, ?_, ?_, ?_, ?_, ?_⟩ <;>
      simp [process_request, hf, hi, runRequests_length]

/-- Claim C3 witness: scenario S3, a frame with protocol id 1 is dropped
with one ERROR record and no bytes written to either socket. -/
theorem no_reply_on_structural_error_witness :
    (process_request defaultPolicy true [0, 3, 0, 1, 0, 6, 1, 3, 0, 0, 0, 10]
        "10.0.0.2" 5000 0 [] UpstreamRead.timeout).1.plcWrites = [] ∧
    (process_request defaultPolicy true [0, 3, 0, 1, 0, 6, 1, 3, 0, 0, 0, 10]
        "10.0.0.2" 5000 0 [] UpstreamRead.timeout).1.clientWrites = [] ∧
    (process_request defaultPolicy true [0, 3, 0, 1, 0, 6, 1, 3, 0, 0, 0, 10]
        "10.0.0.2" 5000 0 [] UpstreamRead.timeout).1.globalStats = ⟨1, 0, 0, 1⟩ ∧
    (process_request defaultPolicy true [0, 3, 0, 1, 0, 6, 1, 3, 0, 0, 0, 10]
        "10.0.0.2" 5000 0 [] UpstreamRead.timeout).1.conn
        = (if true then some ⟨1, 0, 0, 1⟩ else none) ∧
    ((process_request defaultPolicy true [0, 3, 0, 1, 0, 6, 1, 3, 0, 0, 0, 10]
        "10.0.0.2" 5000 0 [] UpstreamRead.timeout).1.logs).length = 1 ∧
    (∀ l ∈ (process_request defaultPolicy true [0, 3, 0, 1, 0, 6, 1, 3, 0, 0, 0, 10]
        "10.0.0.2" 5000 0 [] UpstreamRead.timeout).1.logs,
        l.action = LogAction.ERROR) ∧
    ((runRequests defaultPolicy true "10.0.0.2" 5000
        [⟨[0, 3, 0, 1, 0, 6, 1, 3, 0, 0, 0, 10], 0, UpstreamRead.timeout⟩] []).1).length
        = List.length ([] : List Incoming) + 1 :=
  no_reply_on_structural_error defaultPolicy true _ "10.0.0.2" 5000 0 []
    UpstreamRead.timeout [] (Or.inl ⟨"InvalidProtocolID", rfl⟩)

/-- Claim C10: for every input whose frame parsing fails, the single
ERROR record emitted carries transaction_id 0 and function_code 0,
regardless of the bytes received. -/
theorem parse_error_log_fields
    (pol : SecurityPolicy) (cp : Bool) (data : List Nat) (ip : String)
    (port : Nat) (now : ℚ) (w : List ℚ) (up : UpstreamRead) (e : String)
    (hp : parse_frame data = Except.error e) :
    (process_request pol cp data ip port now w up).1.logs
      = [⟨0, ip, port, 0, LogAction.ERROR, e, 0, 0⟩] := by
  simp [process_request, hp]

/-- Claim C10 witness: a three-byte input fails parsing with TooShort and
is logged with transaction_id 0 and function_code 0. -/
theorem parse_error_log_fields_witness :
    (process_request defaultPolicy true [1, 2, 3] "10.0.0.2" 5000 0 []
        UpstreamRead.timeout).1.logs
      = [⟨0, "10.0.0.2", 5000, 0, LogAction.ERROR, "TooShort", 0, 0⟩] :=
  parse_error_log_fields defaultPolicy true [1, 2, 3] "10.0.0.2" 5000 0 []
    UpstreamRead.timeout "TooShort" rfl

/-- Claim C7: for every allowed request whose upstream reply read times
out, process_request logs a warning, writes no bytes to the client for
that transaction, and returns normally so the relay loop continues with
the next request. -/
theorem upstream_timeout_no_client_write
    (pol : SecurityPolicy) (cp : Bool) (data : List Nat) (ip : String)
    (port : Nat) (now : ℚ) (w : List ℚ) (f : ModbusFrame)
    (rest : List Incoming)
    (hp : parse_frame data = Except.ok f)
    (hv : validate_frame_integrity f = none)
    (ha : (evaluate pol f.function_code ip now w).1.is_allowed = true) :
    (process_request pol cp data ip port now w UpstreamRead.timeout).1.clientWrites
        = [] ∧
    (process_request pol cp data ip port now w UpstreamRead.timeout).1.warnings
        = ["Timeout waiting for PLC response"] ∧
    ((runRequests pol cp ip port (⟨data, now, UpstreamRead.timeout⟩ :: rest) w).1).length
        = rest.length + 1 := by
  refine ⟨?_, ?_, ?_⟩ <;>
    simp [process_request, hp, hv, ha, runRequests_length]

/-- Claim C7 witness: an allowed ReadHoldingRegisters whose upstream read
times out yields a warning, no client bytes, and the loop goes on. -/
theorem upstream_timeout_no_client_write_witness :
    (process_request defaultPolicy true [0, 1, 0, 0, 0, 6, 1, 3, 0, 0, 0, 10]
        "10.0.0.2" 5000 0 [] UpstreamRead.timeout).1.clientWrites = [] ∧
    (process_request defaultPolicy true [0, 1, 0, 0, 0, 6, 1, 3, 0, 0, 0, 10]
        "10.0.0.2" 5000 0 [] UpstreamRead.timeout).1.warnings
        = ["Timeout waiting for PLC response"] ∧
    ((runRequests defaultPolicy true "10.0.0.2" 5000
        [⟨[0, 1, 0, 0, 0, 6, 1, 3, 0, 0, 0, 10], 0, UpstreamRead.timeout⟩] []).1).length
        = List.length ([] : List Incoming) + 1 :=
  upstream_timeout_no_client_write defaultPolicy true _ "10.0.0.2" 5000 0 []
    ⟨1, 0, 6, 1, 3, [0, 0, 0, 10], [0, 1, 0, 0, 0, 6, 1, 3, 0, 0, 0, 10]⟩ []
    rfl rfl (by decide)

/-- Claim C9: for every allowed request whose upstream read returns zero
bytes within the timeout, process_request writes nothing to the client,
emits no warning and no error log, counts the request as allowed, and
returns normally so the relay loop continues. -/
theorem upstream_empty_reply_silent
    (pol : SecurityPolicy) (cp : Bool) (data : List Nat) (ip : String)
    (port : Nat) (now : ℚ) (w : List ℚ) (f : ModbusFrame)
    (rest : List Incoming)
    (hp : parse_frame data = Except.ok f)
    (hv : validate_frame_integrity f = none)
    (ha : (evaluate pol f.function_code ip now w).1.is_allowed = true) :
    (process_request pol cp data ip port now w (UpstreamRead.bytes [])).1.clientWrites
        = [] ∧
    (process_request pol cp data ip port now w (UpstreamRead.bytes [])).1.warnings
        = [] ∧
    (∀ l ∈ (process_request pol cp data ip port now w (UpstreamRead.bytes [])).1.logs,
        l.action = LogAction.ALLOW) ∧
    (process_request pol cp data ip port now w (UpstreamRead.bytes [])).1.globalStats
        = ⟨1, 1, 0, 0⟩ ∧
    ((runRequests pol cp ip port (⟨data, now, UpstreamRead.bytes []⟩ :: rest) w).1).length
        = rest.length + 1 := by
  refine ⟨?_, ?_, ?_, ?_, ?_⟩ <;>
    simp [process_request, hp, hv, ha, runRequests_length]

/-- Claim C9 witness: an allowed ReadHoldingRegisters whose upstream read
returns zero bytes yields no client bytes, no warning, an ALLOW log, and
the loop goes on. -/
theorem upstream_empty_reply_silent_witness :
    (process_request defaultPolicy true [0, 1, 0, 0, 0, 6, 1, 3, 0, 0, 0, 10]
        "10.0.0.2" 5000 0 [] (UpstreamRead.bytes [])).1.clientWrites = [] ∧
    (process_request defaultPolicy true [0, 1, 0, 0, 0, 6, 1, 3, 0, 0, 0, 10]
        "10.0.0.2" 5000 0 [] (UpstreamRead.bytes [])).1.warnings = [] ∧
    (∀ l ∈ (process_request defaultPolicy true [0, 1, 0, 0, 0, 6, 1, 3, 0, 0, 0, 10]
        "10.0.0.2" 5000 0 [] (UpstreamRead.bytes [])).1.logs,
        l.action = LogAction.ALLOW) ∧
    (process_request defaultPolicy true [0, 1, 0, 0, 0, 6, 1, 3, 0, 0, 0, 10]
        "10.0.0.2" 5000 0 [] (UpstreamRead.bytes [])).1.globalStats
        = ⟨1, 1, 0, 0⟩ ∧
    ((runRequests defaultPolicy true "10.0.0.2" 5000
        [⟨[0, 1, 0, 0, 0, 6, 1, 3, 0, 0, 0, 10], 0, UpstreamRead.bytes []⟩] []).1).length
        = List.length ([] : List Incoming) + 1 :=
  upstream_empty_reply_silent defaultPolicy true _ "10.0.0.2" 5000 0 []
    ⟨1, 0, 6, 1, 3, [0, 0, 0, 10], [0, 1, 0, 0, 0, 6, 1, 3, 0, 0, 0, 10]⟩ []
    rfl rfl (by decide)

/-- Claim C8: every completed process_request call increments the request
total by exactly one and exactly one of the allowed, blocked and error
counters by exactly one; the owning ConnectionStats receives the same
increments when present; hence the invariant total_requests equals
total_allowed plus total_blocked plus total_errors is preserved. -/
theorem counter_invariant
    (pol : SecurityPolicy) (cp : Bool) (data : List Nat) (ip : String)
    (port : Nat) (now : ℚ) (w : List ℚ) (up : UpstreamRead)
    (T A B E : Nat) (hT : T = A + B + E) :
    (process_request pol cp data ip port now w up).1.globalStats.requests = 1 ∧
    (process_request pol cp data ip port now w up).1.globalStats.allowed
      + (process_request pol cp data ip port now w up).1.globalStats.blocked
      + (process_request pol cp data ip port now w up).1.globalStats.errors = 1 ∧
    (process_request pol cp data ip port now w up).1.conn
      = (if cp then some (process_request pol cp data ip port now w up).1.globalStats
         else none) ∧
    T + (process_request pol cp data ip port now w up).1.globalStats.requests
      = (A + (process_request pol cp data ip port now w up).1.globalStats.allowed)
        + (B + (process_request pol cp data ip port now w up).1.globalStats.blocked)
        + (E + (process_request pol cp data ip port now w up).1.globalStats.errors) := by
  rcases hpf : parse_frame data with e | f
  · refine ⟨?_, ?_, ?_, ?_⟩ <;> simp [process_request, hpf] <;> omega
  · rcases hvf : validate_frame_integrity f with _ | ierr
    · by_cases ha : (evaluate pol f.function_code ip now w).1.is_allowed
      · cases up with
        | timeout =>
            refine ⟨?_, ?_, ?_, ?_⟩ <;>
              simp [process_request, hpf, hvf, ha] <;> omega
        | bytes bs =>
            refine ⟨?_, ?_, ?_, ?_⟩ <;>
              simp [process_request, hpf, hvf, ha] <;> omega
      · refine ⟨?_, ?_, ?_, ?_⟩ <;>
          simp [process_request, hpf, hvf, ha] <;> omega
    · refine ⟨?_, ?_, ?_, ?_⟩ <;> simp [process_request, hpf, hvf] <;> omega

/-- Claim C8 witness: the counter increments at scenario S1's request with
counters starting from zero. -/
theorem counter_invariant_witness :
    (process_request defaultPolicy true [0, 1, 0, 0, 0, 6, 1, 3, 0, 0, 0, 10]
        "10.0.0.2" 5000 0 [] UpstreamRead.timeout).1.globalStats.requests = 1 ∧
    (process_request defaultPolicy true [0, 1, 0, 0, 0, 6, 1, 3, 0, 0, 0, 10]
        "10.0.0.2" 5000 0 [] UpstreamRead.timeout).1.globalStats.allowed
      + (process_request defaultPolicy true [0, 1, 0, 0, 0, 6, 1, 3, 0, 0, 0, 10]
        "10.0.0.2" 5000 0 [] UpstreamRead.timeout).1.globalStats.blocked
      + (process_request defaultPolicy true [0, 1, 0, 0, 0, 6, 1, 3, 0, 0, 0, 10]
        "10.0.0.2" 5000 0 [] UpstreamRead.timeout).1.globalStats.errors = 1 ∧
    (process_request defaultPolicy true [0, 1, 0, 0, 0, 6, 1, 3, 0, 0, 0, 10]
        "10.0.0.2" 5000 0 [] UpstreamRead.timeout).1.conn
      = (if true then
          some (process_request defaultPolicy true [0, 1, 0, 0, 0, 6, 1, 3, 0, 0, 0, 10]
            "10.0.0.2" 5000 0 [] UpstreamRead.timeout).1.globalStats
         else none) ∧
    0 + (process_request defaultPolicy true [0, 1, 0, 0, 0, 6, 1, 3, 0, 0, 0, 10]
        "10.0.0.2" 5000 0 [] UpstreamRead.timeout).1.globalStats.requests
      = (0 + (process_request defaultPolicy true [0, 1, 0, 0, 0, 6, 1, 3, 0, 0, 0, 10]
          "10.0.0.2" 5000 0 [] UpstreamRead.timeout).1.globalStats.allowed)
        + (0 + (process_request defaultPolicy true [0, 1, 0, 0, 0, 6, 1, 3, 0, 0, 0, 10]
          "10.0.0.2" 5000 0 [] UpstreamRead.timeout).1.globalStats.blocked)
        + (0 + (process_request defaultPolicy true [0, 1, 0, 0, 0, 6, 1, 3, 0, 0, 0, 10]
          "10.0.0.2" 5000 0 [] UpstreamRead.timeout).1.globalStats.errors) :=
  counter_invariant defaultPolicy true _ "10.0.0.2" 5000 0 []
    UpstreamRead.timeout 0 0 0 0 rfl

/-- Claim C6 evaluation: on accept the client address enters the
connections map, but when the upstream PLC connect times out the session
returns early and the entry is NOT removed (first conjunct), while the
normal relay path does remove it (second conjunct). -/
theorem connection_entry_leak_on_connect_timeout :
    handle_client defaultPolicy [] ("10.0.0.7", 1234) UpstreamConnect.timeout [] []
      = ([("10.0.0.7", 1234)], []) ∧
    handle_client defaultPolicy [] ("10.0.0.7", 1234) UpstreamConnect.failed [] []
      = ([("10.0.0.7", 1234)], []) ∧
    handle_client defaultPolicy [] ("10.0.0.7", 1234) UpstreamConnect.ok [] []
      = ([], []) := by
  refine ⟨rfl, rfl, ?_⟩
  simp [handle_client, runRequests, List.erase]

/-- Whether a timestamp lies in the closed 1-second window starting at
time `t0`. -/
def inWindow (t0 x : ℚ) : Bool := decide (t0 ≤ x ∧ x ≤ t0 + 1)

/-- A run of policy evaluations for one source: a list of pairs of
function code and arrival time, threading the rate-limiter window.
Returns the number of ALLOW decisions issued and the final window. -/
def evalRun (pol : SecurityPolicy) (src : String) :
    List (Nat × ℚ) → List ℚ → Nat × List ℚ
  | [], w => (0, w)
  | p :: rest, w =>
      let st := evaluate pol p.1 src p.2 w
      let tail := evalRun pol src rest st.2
      ((if st.1.is_allowed then 1 else 0) + tail.1, tail.2)

/-- Dropping stale timestamps at a time inside the window neither drops
nor adds timestamps that lie in the window. -/
theorem countP_drop_old (t0 now : ℚ) (h1 : t0 ≤ now) (h2 : now ≤ t0 + 1)
    (w : List ℚ) :
    (drop_old now w).countP (inWindow t0) = w.countP (inWindow t0) := by
  induction w with
  | nil => rfl
  | cons x xs ih =>
      by_cases hx : now - x ≤ 1
      · rw [drop_old, List.filter_cons, if_pos (by simpa using hx)]
        rw [List.countP_cons, List.countP_cons]
        rw [drop_old] at ih
        rw [ih]
      · have hxw : inWindow t0 x = false := by
          simp only [inWindow, decide_eq_false_iff_not, not_and]
          intro ha hb
          exact absurd (by linarith : now - x ≤ 1) hx
        rw [drop_old, List.filter_cons, if_neg (by simpa using hx)]
        rw [List.countP_cons, hxw]
        rw [drop_old] at ih
        rw [ih]
        simp

/-- Case analysis of one policy evaluation: either the rule chain blocks
and the window is untouched, or the rate limiter denies on a full
window, or the rate limiter admits and appends the timestamp. -/
theorem evaluate_cases (pol : SecurityPolicy) (fc : Nat) (src : String)
    (now : ℚ) (w : List ℚ) :
    ((evaluate pol fc src now w).1.is_allowed = false ∧
       (evaluate pol fc src now w).2 = w) ∨
    (pol.rate_limit_rps ≤ (drop_old now w).length ∧
       (evaluate pol fc src now w).1.is_allowed = false ∧
       (evaluate pol fc src now w).2 = drop_old now w) ∨
    ((drop_old now w).length < pol.rate_limit_rps ∧
       (evaluate pol fc src now w).2 = drop_old now w ++ [now]) := by
  by_cases hb : (baseDecision pol fc src).is_allowed
  · by_cases ht : pol.rate_limit_rps ≤ (drop_old now w).length
    · right; left
      refine ⟨ht, ?_, ?_⟩ <;> simp [evaluate, rate_check, hb, ht]
    · right; right
      refine ⟨by omega, ?_⟩
      simp [evaluate, rate_check, hb, ht]
  · left
    constructor <;> simp [evaluate, hb]

/-- Invariant of a run of evaluations whose times all lie in one
1-second window: the ALLOW count never exceeds the rate threshold minus
the in-window timestamps already present. -/
theorem evalRun_le_sub (pol : SecurityPolicy) (src : String) (t0 : ℚ)
    (reqs : List (Nat × ℚ))
    (h : ∀ p ∈ reqs, t0 ≤ p.2 ∧ p.2 ≤ t0 + 1) :
    ∀ w : List ℚ,
      (evalRun pol src reqs w).1
        ≤ pol.rate_limit_rps - w.countP (inWindow t0) := by
  induction reqs with
  | nil => intro w; simp [evalRun]
  | cons p rest ih =>
      intro w
      obtain ⟨hp1, hp2⟩ := h p (List.mem_cons_self _ _)
      have hrest : ∀ q ∈ rest, t0 ≤ q.2 ∧ q.2 ≤ t0 + 1 :=
        fun q hq => h q (List.mem_cons_of_mem _ hq)
      have ihr := ih hrest
      have hcnt := countP_drop_old t0 p.2 hp1 hp2 w
      rcases evaluate_cases pol p.1 src p.2 w with
        ⟨hst1, hst2⟩ | ⟨hroom, hst1, hst2⟩ | ⟨hroom, hst2⟩
      · simp only [evalRun, hst1, hst2, if_false, Bool.false_eq_true]
        simpa using ihr w
      · simp only [evalRun, hst1, hst2, if_false, Bool.false_eq_true]
        have := ihr (drop_old p.2 w)
        rw [hcnt] at this
        simpa using this
      · have hcw : (drop_old p.2 w).countP (inWindow t0)
            ≤ (drop_old p.2 w).length := List.countP_le_length _
        have hin : inWindow t0 p.2 = true := by
          simp [inWindow, hp1, hp2]
        have happ : ((drop_old p.2 w ++ [p.2]).countP (inWindow t0))
            = w.countP (inWindow t0) + 1 := by
          rw [List.countP_append, hcnt]
          simp [List.countP_cons, hin]
        have := ihr (drop_old p.2 w ++ [p.2])
        rw [happ] at this
        simp only [evalRun, hst2]
        have hone : (if (evaluate pol p.1 src p.2 w).1.is_allowed then 1 else 0) ≤ 1 := by
          split <;> omega
        rw [hcnt] at hcw
        omega

/-- Claim C4: within any 1-second window the number of ALLOW decisions
the policy engine issues for one source does not exceed rate_limit_rps;
the rate limiter's check drops timestamps older than one second, denies
without appending when the remaining count is at or above the
threshold, and otherwise appends the timestamp and allows. -/
theorem rate_limit_bound
    (pol : SecurityPolicy) (src : String) (t0 : ℚ)
    (reqs : List (Nat × ℚ)) (w : List ℚ) (now : ℚ) (u : List ℚ)
    (h : ∀ p ∈ reqs, t0 ≤ p.2 ∧ p.2 ≤ t0 + 1) :
    (evalRun pol src reqs w).1 ≤ pol.rate_limit_rps ∧
    rate_check pol.rate_limit_rps now u
      = (if pol.rate_limit_rps ≤ (drop_old now u).length
          then (false, drop_old now u)
          else (true, drop_old now u ++ [now])) := by
  refine ⟨le_trans (evalRun_le_sub pol src t0 reqs h w) (Nat.sub_le _ _), rfl⟩

/-- Claim C4 witness: scenario S4, with a threshold of 5, ten allowed
reads inside one tenth of a second yield at most five ALLOW decisions;
the check's deny and append behaviour at a concrete window. -/
theorem rate_limit_bound_witness :
    (evalRun ⟨[1, 2, 3, 4], [5, 6, 15, 16], [], 5⟩ "10.0.0.2"
        [(3, 0), (3, 1/100), (3, 2/100), (3, 3/100), (3, 4/100),
         (3, 5/100), (3, 6/100), (3, 7/100), (3, 8/100), (3, 9/100)] []).1
      ≤ (⟨[1, 2, 3, 4], [5, 6, 15, 16], [], 5⟩ : SecurityPolicy).rate_limit_rps ∧
    rate_check (⟨[1, 2, 3, 4], [5, 6, 15, 16], [], 5⟩ : SecurityPolicy).rate_limit_rps 2 [0, 3/2]
      = (if (⟨[1, 2, 3, 4], [5, 6, 15, 16], [], 5⟩ : SecurityPolicy).rate_limit_rps
            ≤ (drop_old 2 [0, 3/2]).length
          then (false, drop_old 2 [0, 3/2])
          else (true, drop_old 2 [0, 3/2] ++ [2])) :=
  rate_limit_bound ⟨[1, 2, 3, 4], [5, 6, 15, 16], [], 5⟩ "10.0.0.2" 0
    _ [] 2 [0, 3/2] (by intro p hp; fin_cases hp <;> norm_num)

/-- Claim C5 counterexample: in a run of one processed request that the
policy allows but whose upstream read times out, the client byte stream
is empty although the allowed count is one, so the replies received by
the client are not in 1:1 correspondence with the processed requests. -/
theorem sequential_pairing_counterexample :
    (((runRequests defaultPolicy true "10.0.0.2" 5000
        [⟨[0, 1, 0, 0, 0, 6, 1, 3, 0, 0, 0, 10], 0, UpstreamRead.timeout⟩] []).1.map
          Effects.clientWrites).flatten = ([] : List (List Nat))) ∧
    ((runRequests defaultPolicy true "10.0.0.2" 5000
        [⟨[0, 1, 0, 0, 0, 6, 1, 3, 0, 0, 0, 10], 0, UpstreamRead.timeout⟩] []).1.map
          (fun e => e.globalStats.allowed)).sum = 1 := by
  constructor <;> rfl

/-- Claim C5 (amended): within one connection, provided every request
parses, passes integrity validation, and the upstream read returns a
non-empty reply in time whenever the request is forwarded, the client
receives exactly one reply per request in arrival order: the relayed
upstream reply when the request is allowed, the synthesized exception
reply when it is blocked. -/
theorem sequential_pairing
    (pol : SecurityPolicy) (cp : Bool) (ip : String) (port : Nat)
    (reqs : List Incoming) (w : List ℚ)
    (h : ∀ req ∈ reqs,
        (∃ f, parse_frame req.data = Except.ok f ∧
           validate_frame_integrity f = none) ∧
        (∃ bs, req.upstream = UpstreamRead.bytes bs ∧ bs ≠ [])) :
    List.Forall₂
      (fun (req : Incoming) (e : Effects) =>
        (e.globalStats.allowed = 1 ∧
           ∃ bs, req.upstream = UpstreamRead.bytes bs ∧ e.clientWrites = [bs]) ∨
        (e.globalStats.blocked = 1 ∧
           ∃ f, parse_frame req.data = Except.ok f ∧
             e.clientWrites = [create_exception_response f ILLEGAL_FUNCTION]))
      reqs (runRequests pol cp ip port reqs w).1 ∧
    (((runRequests pol cp ip port reqs w).1.map Effects.clientWrites).flatten).length
      = reqs.length := by
  revert h
  induction reqs generalizing w with
  | nil => intro h; exact ⟨List.Forall₂.nil, rfl⟩
  | cons r rest ih =>
      intro h
      obtain ⟨⟨f, hp, hv⟩, bs, hup, hne⟩ := h r (List.mem_cons_self _ _)
      have hrest := fun req hq => h req (List.mem_cons_of_mem _ hq)
      simp only [runRequests]
      by_cases ha : (evaluate pol f.function_code ip r.now w).1.is_allowed
      · have h1 : (process_request pol cp r.data ip port r.now w
            r.upstream).1.globalStats.allowed = 1 := by
          rw [hup]; simp [process_request, hp, hv, ha]
        have h2 : (process_request pol cp r.data ip port r.now w
            r.upstream).1.clientWrites = [bs] := by
          rw [hup]; simp [process_request, hp, hv, ha, hne]
        obtain ⟨ihf, ihl⟩ := ih _ (hrest)
        refine ⟨List.Forall₂.cons (Or.inl ⟨h1, bs, hup, h2⟩) ihf, ?_⟩
        simp only [List.map_cons, List.flatten_cons, List.length_append, h2, ihl,
          List.length_cons, List.length_singleton, List.length_nil]
        omega
      · have h1 : (process_request pol cp r.data ip port r.now w
            r.upstream).1.globalStats.blocked = 1 := by
          simp [process_request, hp, hv, ha]
        have h2 : (process_request pol cp r.data ip port r.now w
            r.upstream).1.clientWrites
            = [create_exception_response f ILLEGAL_FUNCTION] := by
          simp [process_request, hp, hv, ha]
        obtain ⟨ihf, ihl⟩ := ih _ (hrest)
        refine ⟨List.Forall₂.cons (Or.inr ⟨h1, f, hp, h2⟩) ihf, ?_⟩
        simp only [List.map_cons, List.flatten_cons, List.length_append, h2, ihl,
          List.length_cons, List.length_singleton, List.length_nil]
        omega

/-- Claim C5 witness: a two-request run (S1 allowed, S2 blocked) yields
one reply per request in arrival order, the relayed reply then the
exception reply. -/
theorem sequential_pairing_witness :
    List.Forall₂
      (fun (req : Incoming) (e : Effects) =>
        (e.globalStats.allowed = 1 ∧
           ∃ bs, req.upstream = UpstreamRead.bytes bs ∧ e.clientWrites = [bs]) ∨
        (e.globalStats.blocked = 1 ∧
           ∃ f, parse_frame req.data = Except.ok f ∧
             e.clientWrites = [create_exception_response f ILLEGAL_FUNCTION]))
      [⟨[0, 1, 0, 0, 0, 6, 1, 3, 0, 0, 0, 10], 0,
          UpstreamRead.bytes [0, 1, 0, 0, 0, 5, 1, 3, 2, 0, 42]⟩,
       ⟨[0, 2, 0, 0, 0, 6, 1, 6, 0, 0, 3, 231], 0, UpstreamRead.bytes [1]⟩]
      (runRequests defaultPolicy true "10.0.0.2" 5000
        [⟨[0, 1, 0, 0, 0, 6, 1, 3, 0, 0, 0, 10], 0,
            UpstreamRead.bytes [0, 1, 0, 0, 0, 5, 1, 3, 2, 0, 42]⟩,
         ⟨[0, 2, 0, 0, 0, 6, 1, 6, 0, 0, 3, 231], 0, UpstreamRead.bytes [1]⟩] []).1 ∧
    (((runRequests defaultPolicy true "10.0.0.2" 5000
        [⟨[0, 1, 0, 0, 0, 6, 1, 3, 0, 0, 0, 10], 0,
            UpstreamRead.bytes [0, 1, 0, 0, 0, 5, 1, 3, 2, 0, 42]⟩,
         ⟨[0, 2, 0, 0, 0, 6, 1, 6, 0, 0, 3, 231], 0, UpstreamRead.bytes [1]⟩] []).1.map
        Effects.clientWrites).flatten).length
      = ([⟨[0, 1, 0, 0, 0, 6, 1, 3, 0, 0, 0, 10], 0,
            UpstreamRead.bytes [0, 1, 0, 0, 0, 5, 1, 3, 2, 0, 42]⟩,
          ⟨[0, 2, 0, 0, 0, 6, 1, 6, 0, 0, 3, 231], 0,
            UpstreamRead.bytes [1]⟩] : List Incoming).length :=
  sequential_pairing defaultPolicy true "10.0.0.2" 5000
    [⟨[0, 1, 0, 0, 0, 6, 1, 3, 0, 0, 0, 10], 0,
        UpstreamRead.bytes [0, 1, 0, 0, 0, 5, 1, 3, 2, 0, 42]⟩,
     ⟨[0, 2, 0, 0, 0, 6, 1, 6, 0, 0, 3, 231], 0, UpstreamRead.bytes [1]⟩] []
    (by
      intro req hreq
      fin_cases hreq
      · exact ⟨⟨⟨1, 0, 6, 1, 3, [0, 0, 0, 10],
            [0, 1, 0, 0, 0, 6, 1, 3, 0, 0, 0, 10]⟩, rfl, rfl⟩,
          ⟨[0, 1, 0, 0, 0, 5, 1, 3, 2, 0, 42], rfl, by decide⟩⟩
      · exact ⟨⟨⟨2, 0, 6, 1, 6, [0, 0, 3, 231],
            [0, 2, 0, 0, 0, 6, 1, 6, 0, 0, 3, 231]⟩, rfl, rfl⟩,
          ⟨[1], rfl, by decide⟩⟩)
